import Mathlib

/-
  Verification of the order/payment consistency subsystem of the
  order-service backend (TypeScript sources under src/).

  The embedding translates, statement by statement, the code of
  - src/src/services/orderService.ts  (OrderService)
  - src/unnamed/part_002              (orders router: POST /, GET /:id, PATCH /:id/status,
                                       and the CacheService it reads through)
  - src/src/models/User.ts (second document: payments router, webhook
                            verification, processWebhookWithRetry)
  into pure Lean functions over an explicit database state.  SQL tables are
  lists of rows; each SQL statement of the source is one Lean function.
  The rows carry the columns the code touches (the repository's migration
  file lacks the payments / webhook_retry_log DDL, so those row shapes
  follow the spec's data model, section 3, while all behaviour is taken
  from the TypeScript code).
-/

/-- Decidable equality for Except values, so that concrete runs of the
embedded operations can be checked by evaluation. -/
instance {ε α : Type} [DecidableEq ε] [DecidableEq α] : DecidableEq (Except ε α) := fun a b =>
  match a, b with
  | Except.ok x, Except.ok y =>
    if h : x = y then isTrue (by rw [h]) else isFalse (by simp [h])
  | Except.error e, Except.error f =>
    if h : e = f then isTrue (by rw [h]) else isFalse (by simp [h])
  | Except.ok _, Except.error _ => isFalse (by simp)
  | Except.error _, Except.ok _ => isFalse (by simp)

namespace OrderBackend

/-- Order lifecycle statuses (enum OrderStatus, src/unnamed/part_002 and models). -/
inductive OrderStatus
  | PENDING
  | PAID
  | SHIPPED
  | DELIVERED
  | CANCELLED
  deriving DecidableEq, BEq, Repr

/-- Payment statuses (enum PaymentStatus in the payments router). -/
inductive PaymentStatus
  | PENDING
  | SUCCESS
  | FAILED
  | CANCELLED
  | REFUNDED
  | PROCESSING
  deriving DecidableEq, BEq, Repr

/-- One entry of an order's item list ({sku, quantity, price}). -/
structure OrderItem where
  sku : String
  quantity : Int
  price : Int
  deriving DecidableEq, BEq, Repr

/-- A row of the orders table.  Timestamps are abstract ticks (Nat).
`paid_at` is the column written by the webhook processor's order update. -/
structure OrderRow where
  id : String
  user_id : String
  items : List OrderItem
  status : OrderStatus
  client_token : String
  total_amount : Int
  version : Int
  created_at : Nat
  updated_at : Nat
  paid_at : Option Nat
  deriving DecidableEq, BEq, Repr

/-- A row of the payments table.  `transaction_id` / `failure_reason` are
nullable columns (`none` = SQL NULL). -/
structure PaymentRow where
  payment_id : String
  order_id : String
  amount : Int
  status : PaymentStatus
  transaction_id : Option String
  failure_reason : Option String
  expires_at : Nat
  updated_at : Nat
  processed_at : Option Nat
  deriving DecidableEq, BEq, Repr

/-- A row of the webhook_retry_log table. -/
structure RetryLogRow where
  payment_id : String
  order_id : String
  attempt_number : Nat
  error_message : String
  retry_at : Option Nat
  final_failure : Bool
  created_at : Nat
  deriving DecidableEq, BEq, Repr

/-- The relational store: the three tables the core reads and writes. -/
structure DB where
  orders : List OrderRow
  payments : List PaymentRow
  webhook_retry_log : List RetryLogRow
  deriving DecidableEq, BEq, Repr

/-- Errors thrown by OrderService methods (the `throw new Error(...)` sites)
plus the driver-level duplicate-key error surfaced by a failed INSERT. -/
inductive SvcError
  | notFound
  | conflict
  | duplicateKey (msg : String)
  deriving DecidableEq, BEq, Repr

/-- The message text of a service error, as the route handlers see it
(`error.message`). -/
def SvcError.message : SvcError → String
  | .notFound => "Order not found"
  | .conflict => "Order was modified by another process. Please refresh and try again."
  | .duplicateKey m => m

/-- `SELECT * FROM orders WHERE client_token = tok` (first row). -/
def findByToken (db : DB) (tok : String) : Option OrderRow :=
  db.orders.find? (fun o => o.client_token == tok)

/-- `SELECT * FROM orders WHERE id = oid` (first row). -/
def selectOrderById (db : DB) (oid : String) : Option OrderRow :=
  db.orders.find? (fun o => o.id == oid)

/-- `items.reduce((sum, item) => sum + (item.price * item.quantity), 0)`
(orderService.ts line 25). -/
def computeTotal (items : List OrderItem) : Int :=
  items.foldl (fun sum item => sum + item.price * item.quantity) 0

/-- `INSERT INTO orders ... VALUES (...)`: fails with the driver's
duplicate-key error when the UNIQUE constraint on client_token
(migrations/001_initial.sql) is violated, otherwise appends the row. -/
def insertOrder (db : DB) (row : OrderRow) : Except SvcError DB :=
  if db.orders.any (fun o => o.client_token == row.client_token) then
    Except.error (SvcError.duplicateKey
      "duplicate key value violates unique constraint \"orders_client_token_key\"")
  else
    Except.ok { db with orders := db.orders ++ [row] }

/-- OrderService.createOrder (orderService.ts lines 13-42), with its two
round trips to the store made explicit: the idempotency SELECT runs against
`dbRead`, the INSERT against `dbWrite`.  A sequential (uninterfered) call is
`createOrderService db db ...`; a call that loses the uniqueness race reads a
snapshot without the token while the INSERT runs after the winner's row
landed. -/
def createOrderService (dbRead dbWrite : DB) (userId : String) (items : List OrderItem)
    (clientToken : String) (newId : String) (now : Nat) :
    Except SvcError (DB × OrderRow) :=
  match findByToken dbRead clientToken with
  | some row => Except.ok (dbWrite, row)
  | none =>
    let totalAmount := computeTotal items
    let row : OrderRow :=
      { id := newId, user_id := userId, items := items, status := OrderStatus.PENDING,
        client_token := clientToken, total_amount := totalAmount, version := 1,
        created_at := now, updated_at := now, paid_at := none }
    match insertOrder dbWrite row with
    | Except.ok db2 => Except.ok (db2, row)
    | Except.error e => Except.error e

/-- JS truthiness of the optional `currentVersion` argument
(`if (currentVersion && ...)`): `undefined` and `0` are falsy. -/
def versionTruthy : Option Int → Bool
  | none => false
  | some v => v != 0

/-- The version check of updateOrderStatus (orderService.ts line 243):
a Conflict is thrown iff `currentVersion` is truthy and differs from the
row's current version. -/
def versionCheckFails (cur : OrderRow) (currentVersion : Option Int) : Bool :=
  versionTruthy currentVersion &&
    (match currentVersion with
     | some v => cur.version != v
     | none => false)

/-- `UPDATE orders SET status = s, version = version + 1, updated_at = NOW()
WHERE id = oid RETURNING *` (orderService.ts lines 248-253).  The predicate
is the id alone — it does not mention the version. -/
def updateStatement (db : DB) (oid : String) (newStatus : OrderStatus) (now : Nat) :
    DB × List OrderRow :=
  let upd := fun (o : OrderRow) =>
    if o.id == oid then
      { o with status := newStatus, version := o.version + 1, updated_at := now }
    else o
  let db2 := { db with orders := db.orders.map upd }
  (db2, db2.orders.filter (fun o => o.id == oid))

/-- OrderService.updateOrderStatus (orderService.ts lines 226-263), run
sequentially: SELECT by id; NotFound when absent; Conflict when the version
check fails; otherwise the unconditional-by-version UPDATE. -/
def updateOrderStatus (db : DB) (oid : String) (newStatus : OrderStatus)
    (currentVersion : Option Int) (now : Nat) : Except SvcError (DB × OrderRow) :=
  match selectOrderById db oid with
  | none => Except.error SvcError.notFound
  | some cur =>
    if versionCheckFails cur currentVersion then
      Except.error SvcError.conflict
    else
      let (db2, returned) := updateStatement db oid newStatus now
      match returned with
      | r :: _ => Except.ok (db2, r)
      | [] => Except.error SvcError.notFound

/-- Prefix test on character lists (helper for the substring test). -/
def charListStartsWith : List Char → List Char → Bool
  | _, [] => true
  | [], _ :: _ => false
  | c :: cs, d :: ds => c == d && charListStartsWith cs ds

/-- Substring occurrence on character lists. -/
def charListContains : List Char → List Char → Bool
  | [], pat => pat.isEmpty
  | c :: rest, pat => charListStartsWith (c :: rest) pat || charListContains rest pat

/-- Substring test used by the route's error inspection
(`error.message.includes(...)`). -/
def containsSub (s pat : String) : Bool :=
  charListContains s.data pat.data

/-- Insert one row into a list kept in descending `created_at` order
(stable: equal timestamps keep their relative order). -/
def insertDesc (o : OrderRow) : List OrderRow → List OrderRow
  | [] => [o]
  | x :: xs => if o.created_at ≤ x.created_at then x :: insertDesc o xs else o :: x :: xs

/-- `ORDER BY created_at DESC` (the SQL leaves ties unspecified; the model
keeps the table order for ties). -/
def sortByCreatedDesc (l : List OrderRow) : List OrderRow :=
  l.foldr insertDesc []

/-- The exact query OrderService.getOrders runs when called as
`getOrders(userId, role)` (the recovery call in the POST / handler): no
status or SKU filter, page 1, limit 10 — for a non-admin caller
`SELECT * FROM orders WHERE user_id = userId ORDER BY created_at DESC
LIMIT 10 OFFSET 0` (orderService.ts lines 152-157), for an admin the same
without the user_id predicate (lines 183-187). -/
def getOrdersDefaultPage (db : DB) (userId role : String) : List OrderRow :=
  let rows :=
    if role != "ADMIN" && userId != "" then
      db.orders.filter (fun o => o.user_id == userId)
    else
      db.orders
  (sortByCreatedDesc rows).take 10

/-- Responses of the POST /orders handler that matter to the claims:
201 with the fresh order, 200 with the recovered existing order, or the
generic 500. -/
inductive CreateResp
  | created (o : OrderRow)
  | okExisting (o : OrderRow)
  | serverError
  deriving DecidableEq, BEq, Repr

/-- The POST /orders handler (src/unnamed/part_002 lines 43-77): call
createOrder; on an error whose message contains both "duplicate key" and
"client_token", recover by listing the caller's orders (default page) and
returning the row with the matching client_token if present, else 500. -/
def routePostOrders (dbRead dbWrite : DB) (userId role : String)
    (items : List OrderItem) (clientToken newId : String) (now : Nat) :
    CreateResp × DB :=
  match createOrderService dbRead dbWrite userId items clientToken newId now with
  | Except.ok (db2, row) => (CreateResp.created row, db2)
  | Except.error e =>
    let msg := e.message
    if containsSub msg "duplicate key" && containsSub msg "client_token" then
      match (getOrdersDefaultPage dbWrite userId role).find?
          (fun o => o.client_token == clientToken) with
      | some existing => (CreateResp.okExisting existing, dbWrite)
      | none => (CreateResp.serverError, dbWrite)
    else
      (CreateResp.serverError, dbWrite)

/-- The write phase of updateOrderStatus (version check + UPDATE), applied
to a previously read snapshot row.  Exposing it separately from the SELECT
lets concurrent interleavings of the two round trips be executed. -/
def updateWritePhase (db : DB) (oid : String) (readRow : Option OrderRow)
    (newStatus : OrderStatus) (currentVersion : Option Int) (now : Nat) :
    Except SvcError OrderRow × DB :=
  match readRow with
  | none => (Except.error SvcError.notFound, db)
  | some cur =>
    if versionCheckFails cur currentVersion then
      (Except.error SvcError.conflict, db)
    else
      let (db2, returned) := updateStatement db oid newStatus now
      match returned with
      | r :: _ => (Except.ok r, db2)
      | [] => (Except.error SvcError.notFound, db2)

/-- Two concurrent updateOrderStatus calls under the interleaving
SELECT₁, SELECT₂, UPDATE₁, UPDATE₂ — possible because the service issues
its SELECT and its UPDATE as two separate round trips and the UPDATE's
predicate is `WHERE id` alone.  Returns both callers' outcomes and the
final table state. -/
def twoConcurrentUpdates (db0 : DB) (oid : String)
    (s1 s2 : OrderStatus) (v1 v2 : Option Int) (now1 now2 : Nat) :
    Except SvcError OrderRow × Except SvcError OrderRow × DB :=
  let r1 := selectOrderById db0 oid
  let r2 := selectOrderById db0 oid
  let (o1, db1) := updateWritePhase db0 oid r1 s1 v1 now1
  let (o2, db2) := updateWritePhase db1 oid r2 s2 v2 now2
  (o1, o2, db2)

/-- One entry of the CacheService map: value plus absolute expiry
(cacheService, second document of orderService.ts). -/
structure CacheItem where
  value : OrderRow
  expiry : Nat
  deriving DecidableEq, BEq, Repr

/-- Process state seen by the order routes: the database, the CacheService
map the GET /:id route reads through, and the legacy `global.orderCache`
map that invalidateOrderCache deletes from (no live code path ever writes
to the latter). -/
structure AppState where
  db : DB
  cacheSvc : List (String × CacheItem)
  orderCache : List (String × OrderRow)
  deriving DecidableEq, BEq, Repr

/-- `cacheService.set(key, value, ttlMs)`: overwrite unconditionally,
expiry = now + ttl. -/
def svcCacheSet (st : AppState) (key : String) (v : OrderRow) (ttl now : Nat) : AppState :=
  let item : CacheItem := { value := v, expiry := now + ttl }
  if st.cacheSvc.any (fun kv => kv.fst == key) then
    { st with cacheSvc := st.cacheSvc.map (fun kv => if kv.fst == key then (key, item) else kv) }
  else
    { st with cacheSvc := st.cacheSvc ++ [(key, item)] }

/-- `cacheService.get(key)`: miss on absent key; lazily purge and miss once
expired; otherwise hit. -/
def svcCacheGet (st : AppState) (key : String) (now : Nat) : Option OrderRow × AppState :=
  match st.cacheSvc.find? (fun kv => kv.fst == key) with
  | none => (none, st)
  | some kv =>
    if now > kv.snd.expiry then
      (none, { st with cacheSvc := st.cacheSvc.filter (fun e => e.fst != key) })
    else
      (some kv.snd.value, st)

/-- OrderService.getOrderById (orderService.ts lines 200-224): non-admin
callers only see their own rows. -/
def getOrderByIdSvc (db : DB) (oid userId role : String) : Option OrderRow :=
  if role != "ADMIN" && userId != "" then
    db.orders.find? (fun o => o.id == oid && o.user_id == userId)
  else
    db.orders.find? (fun o => o.id == oid)

/-- The GET /orders/:id handler (src/unnamed/part_002 lines 118-146):
read through the CacheService under key `order:{id}:{viewer}`, filling the
cache with a 30000 ms TTL on a miss. -/
def routeGetOrder (st : AppState) (oid userId role : String) (now : Nat) :
    Option OrderRow × AppState :=
  let cacheKey := "order:" ++ oid ++ ":" ++ (if role == "ADMIN" then "admin" else userId)
  let (cached, st1) := svcCacheGet st cacheKey now
  match cached with
  | some o => (some o, st1)
  | none =>
    match getOrderByIdSvc st1.db oid userId role with
    | some o => (some o, svcCacheSet st1 cacheKey o 30000 now)
    | none => (none, st1)

/-- OrderService.invalidateOrderCache (orderService.ts lines 285-290):
`delete global.orderCache[orderId]` — it touches only the legacy map, not
the CacheService the GET route reads. -/
def invalidateOrderCache (st : AppState) (oid : String) : AppState :=
  { st with orderCache := st.orderCache.filter (fun kv => kv.fst != oid) }

/-- updateOrderStatus at process level: the database update followed by
the cache invalidation call, as the service method runs them. -/
def updateOrderStatusApp (st : AppState) (oid : String) (newStatus : OrderStatus)
    (currentVersion : Option Int) (now : Nat) : Except SvcError (AppState × OrderRow) :=
  match updateOrderStatus st.db oid newStatus currentVersion now with
  | Except.ok (db2, r) => Except.ok (invalidateOrderCache { st with db := db2 } oid, r)
  | Except.error e => Except.error e

/-- JS `x || null` applied to a nullable string parameter: the empty string
is falsy and becomes NULL (`transactionId || null`, `failureReason || null`). -/
def jsOrNull : Option String → Option String
  | some s => if s == "" then none else some s
  | none => none

/-- JS strict equality between the stored nullable column and the optional
incoming parameter (`currentPayment.transaction_id === transactionId`):
a stored SQL NULL surfaces as `null`, an absent parameter as `undefined`,
and `null === undefined` is false, so the comparison is true only when both
sides carry the same actual string. -/
def txnTripleEq : Option String → Option String → Bool
  | some a, some b => a == b
  | _, _ => false

/-- Row effect of the expiry sweep's UPDATE: a PENDING payment past its
expiry becomes CANCELLED with reason 'Payment expired'. -/
def expirySweepRow (now : Nat) (p : PaymentRow) : PaymentRow :=
  if p.status == PaymentStatus.PENDING && p.expires_at < now then
    { p with status := PaymentStatus.CANCELLED,
             failure_reason := some "Payment expired", updated_at := now }
  else p

/-- `cleanupExpiredPayments` (src/src/models/User.ts second document,
lines 514-534): `UPDATE payments SET status = CANCELLED, failure_reason =
'Payment expired' WHERE status = PENDING AND expires_at < now`. -/
def cleanupExpiredPayments (db : DB) (now : Nat) : DB :=
  { db with payments := db.payments.map (expirySweepRow now) }

/-- Row effect of the webhook's payment UPDATE (lines 400-410). -/
def webhookPayUpdate (pid : String) (st : PaymentStatus) (tid fr : Option String)
    (now : Nat) (p : PaymentRow) : PaymentRow :=
  if p.payment_id == pid then
    { p with status := st, transaction_id := jsOrNull tid,
             failure_reason := jsOrNull fr, updated_at := now,
             processed_at := some now }
  else p

/-- Row effect of the webhook's order UPDATE on SUCCESS (lines 412-421). -/
def webhookOrderPaid (oid : String) (now : Nat) (o : OrderRow) : OrderRow :=
  if o.id == oid then
    { o with status := OrderStatus.PAID, updated_at := now, paid_at := some now }
  else o

/-- The write sequence of one apply attempt, run when the idempotency gate
does not fire: payment UPDATE (lines 400-410), conditional order UPDATE
(lines 412-421), expiry sweep (line 436). -/
def applyWebhookWrites (db : DB) (paymentId orderId : String) (status : PaymentStatus)
    (transactionId failureReason : Option String) (now : Nat) : DB :=
  let db1 := { db with
    payments := db.payments.map
      (webhookPayUpdate paymentId status transactionId failureReason now) }
  let db2 :=
    if status == PaymentStatus.SUCCESS then
      { db1 with orders := db1.orders.map (webhookOrderPaid orderId now) }
    else db1
  cleanupExpiredPayments db2 now

/-- The try-body of processWebhookWithRetry (one apply attempt, lines
380-436): idempotency gate, then the write sequence.  Errors (`throw`) are
the Except.error branch. -/
def applyWebhook (db : DB) (paymentId orderId : String) (status : PaymentStatus)
    (transactionId failureReason : Option String) (now : Nat) : Except String DB :=
  match db.payments.find? (fun p => p.payment_id == paymentId) with
  | none => Except.error ("Payment " ++ paymentId ++ " not found")
  | some currentPayment =>
    if currentPayment.status != PaymentStatus.PENDING &&
        txnTripleEq currentPayment.transaction_id transactionId then
      Except.ok db
    else
      Except.ok (applyWebhookWrites db paymentId orderId status transactionId failureReason now)

/-- The fixed retry ceiling (`const maxRetries = 3`). -/
def maxRetries : Nat := 3

/-- `INSERT INTO webhook_retry_log ...` (append-only). -/
def insertRetryLog (db : DB) (row : RetryLogRow) : DB :=
  { db with webhook_retry_log := db.webhook_retry_log ++ [row] }

/-- The dead-letter payment update: `UPDATE payments SET status = FAILED,
failure_reason = 'Webhook processing failed after maximum retries' WHERE
payment_id = pid` (lines 495-502). -/
def markPaymentFailed (db : DB) (pid : String) (now : Nat) : DB :=
  { db with payments := db.payments.map (fun p =>
      if p.payment_id == pid then
        { p with status := PaymentStatus.FAILED,
                 failure_reason := some "Webhook processing failed after maximum retries",
                 updated_at := now }
      else p) }

/-- What one invocation of processWebhookWithRetry does after its try/catch:
return normally, return normally after scheduling the next attempt on a
setTimeout timer (delay in ms), or — only in the final attempt — rethrow
the error out of the catch block (line 508). -/
inductive AttemptOutcome
  | completed
  | retryScheduled (next : Nat) (delayMs : Nat)
  | deadLetterRethrow (msg : String)
  deriving DecidableEq, BEq, Repr

/-- One invocation of processWebhookWithRetry at a given attempt number
(lines 370-511).  `hfail attempt = true` models a transient storage failure
throwing at the attempt's first query, before any write of the attempt. -/
def webhookAttempt (hfail : Nat → Bool) (db : DB) (paymentId orderId : String)
    (status : PaymentStatus) (transactionId failureReason : Option String)
    (now attempt : Nat) : DB × AttemptOutcome :=
  let tryBody : Except String DB :=
    if hfail attempt then Except.error "transient storage failure"
    else applyWebhook db paymentId orderId status transactionId failureReason now
  match tryBody with
  | Except.ok db2 => (db2, AttemptOutcome.completed)
  | Except.error e =>
    if attempt < maxRetries then
      let db2 := insertRetryLog db
        { payment_id := paymentId, order_id := orderId, attempt_number := attempt,
          error_message := e, retry_at := some (now + 2 ^ attempt * 1000),
          final_failure := false, created_at := now }
      (db2, AttemptOutcome.retryScheduled (attempt + 1) (2 ^ attempt * 1000))
    else
      let db2 := insertRetryLog db
        { payment_id := paymentId, order_id := orderId, attempt_number := attempt,
          error_message := "Max retries exceeded: " ++ e, retry_at := none,
          final_failure := true, created_at := now }
      let db3 := markPaymentFailed db2 paymentId now
      (db3, AttemptOutcome.deadLetterRethrow e)

/-- Net result of draining the whole deferred-retry chain. -/
structure ChainResult where
  db : DB
  attemptsRun : Nat
  unhandledRethrow : Bool
  deriving DecidableEq, BEq, Repr

/-- Drains the retry chain starting at a given attempt: each
`retryScheduled` outcome is the setTimeout re-invocation firing.  The
rethrow of the final attempt happens inside that detached timer callback,
so it is recorded in the result, not delivered to any caller. -/
def runChainFrom (hfail : Nat → Bool) (db : DB) (paymentId orderId : String)
    (status : PaymentStatus) (transactionId failureReason : Option String)
    (now attempt : Nat) : ChainResult :=
  match h : webhookAttempt hfail db paymentId orderId status transactionId failureReason now attempt with
  | (db2, AttemptOutcome.completed) =>
    { db := db2, attemptsRun := attempt, unhandledRethrow := false }
  | (db2, AttemptOutcome.deadLetterRethrow _) =>
    { db := db2, attemptsRun := attempt, unhandledRethrow := true }
  | (db2, AttemptOutcome.retryScheduled next _) =>
    runChainFrom hfail db2 paymentId orderId status transactionId failureReason now next
termination_by maxRetries + 1 - attempt
decreasing_by
  simp only [webhookAttempt] at h
  split at h
  · simp at h
  · split at h
    · simp at h
      omega
    · simp at h

/-- Whether the HTTP handler's `await processWebhookWithRetry(..., 1)`
returns normally: the handler observes only the first attempt's outcome —
a scheduled retry detaches onto a timer — and an error escapes only through
the final attempt's rethrow. -/
def callerSeesNormalReturn (hfail : Nat → Bool) (db : DB) (paymentId orderId : String)
    (status : PaymentStatus) (transactionId failureReason : Option String)
    (now : Nat) : Bool :=
  match (webhookAttempt hfail db paymentId orderId status transactionId failureReason now 1).2 with
  | AttemptOutcome.deadLetterRethrow _ => false
  | _ => true

/-- JS falsiness of a possibly-absent header / body string field
(`!signature`, `!payment_id`): absent (`undefined`) or empty. -/
def jsFalsyStr : Option String → Bool
  | none => true
  | some s => s == ""

/-- The timestamp gate (lines 286-291): `Math.abs(currentTime - parseInt(ts))
> 300`.  An unparseable header gives NaN, every comparison with which is
false, so the gate passes it. -/
def timestampTooFar (currentTime : Int) (ts : String) : Bool :=
  match ts.toInt? with
  | some w => (currentTime - w).natAbs > 300
  | none => false

/-- `s.replace(pat, '')` with a string pattern: JS replaces only the first
occurrence. -/
def replaceFirst (s pat : String) : String :=
  match s.splitOn pat with
  | [] => s
  | [x] => x
  | x :: rest => x ++ String.intercalate pat rest

/-- HTTP responses of the POST /payments/webhook handler. -/
inductive WebhookResp
  | badRequest (msg : String)
  | unauthorized
  | serverError
  | success
  deriving DecidableEq, BEq, Repr

/-- The POST /payments/webhook handler (lines 276-321).  `hmac secret msg`
stands for the hex HMAC-SHA256 digest; `payload` is `JSON.stringify(req.body)`.
Gates in source order: headers present, timestamp within ±300 s, signature
equal (crypto.timingSafeEqual throws on length mismatch, which the outer
catch turns into a 500 — still before any write).  Only after every gate
does it run processWebhookWithRetry, of which it awaits attempt 1. -/
def webhookRoute (hmac : String → String → String) (secret : String)
    (hfail : Nat → Bool) (db : DB) (sigHeader tsHeader : Option String)
    (payload : String) (payment_id : Option String) (order_id : String)
    (status : Option PaymentStatus) (transactionId failureReason : Option String)
    (nowSec : Int) (nowMs : Nat) : WebhookResp × DB :=
  if jsFalsyStr sigHeader || jsFalsyStr tsHeader then
    (WebhookResp.badRequest "Missing webhook headers", db)
  else if timestampTooFar nowSec (tsHeader.getD "") then
    (WebhookResp.badRequest "Webhook timestamp too old", db)
  else if (replaceFirst (sigHeader.getD "") "sha256=").length
      != (hmac secret ((tsHeader.getD "") ++ "." ++ payload)).length then
    (WebhookResp.serverError, db)
  else if replaceFirst (sigHeader.getD "") "sha256="
      != hmac secret ((tsHeader.getD "") ++ "." ++ payload) then
    (WebhookResp.unauthorized, db)
  else if jsFalsyStr payment_id || status == none then
    (WebhookResp.badRequest "Missing required webhook fields", db)
  else
    (WebhookResp.success,
      (runChainFrom hfail db (payment_id.getD "") order_id
        (status.getD PaymentStatus.PENDING) transactionId failureReason nowMs 1).db)

/-! ## Concrete sample states used by witnesses and counterexamples -/

/-- The spec's running example item list: `[{sku:"A1", qty:2, price:500}]`. -/
def sampleItems : List OrderItem :=
  [{ sku := "A1", quantity := 2, price := 500 }]

/-- A freshly created sample order (status PENDING, version 1,
total 1000). -/
def sampleOrder : OrderRow :=
  { id := "o1", user_id := "u1", items := sampleItems,
    status := OrderStatus.PENDING, client_token := "tok-1",
    total_amount := 1000, version := 1, created_at := 0, updated_at := 0,
    paid_at := none }

/-- A one-order database. -/
def sampleDB : DB :=
  { orders := [sampleOrder], payments := [], webhook_retry_log := [] }

/-- A PENDING sample payment for the sample order, not yet carrying a
provider transaction id. -/
def samplePayment : PaymentRow :=
  { payment_id := "p1", order_id := "o1", amount := 1000,
    status := PaymentStatus.PENDING, transaction_id := none,
    failure_reason := none, expires_at := 100, updated_at := 0,
    processed_at := none }

/-- A database holding the sample order and its PENDING payment. -/
def samplePayDB : DB :=
  { orders := [sampleOrder], payments := [samplePayment], webhook_retry_log := [] }

/-- The winner's row of the uniqueness race, owned by a different user
(userB) than the racing caller (userA). -/
def raceWinnerB : OrderRow :=
  { sampleOrder with id := "w1", user_id := "userB", client_token := "tok-9" }

/-- The winner's row of the uniqueness race when both racers act for the
same user (userA). -/
def raceWinnerA : OrderRow :=
  { sampleOrder with id := "w1", user_id := "userA", client_token := "tok-9" }

/-- The empty database (the snapshot the losing call's idempotency SELECT
saw, before the winner's row landed). -/
def emptyDB : DB := { orders := [], payments := [], webhook_retry_log := [] }

/-- The database after the foreign winner's insert. -/
def raceDBForeign : DB :=
  { orders := [raceWinnerB], payments := [], webhook_retry_log := [] }

/-- The database after the same-user winner's insert. -/
def raceDBOwn : DB :=
  { orders := [raceWinnerA], payments := [], webhook_retry_log := [] }

/-- Process state before the C4 scenario: the sample order in the store,
both caches empty. -/
def c4Start : AppState := { db := sampleDB, cacheSvc := [], orderCache := [] }

/-- State after the first GET /orders/:id (the order is now cached for
viewer u1). -/
def c4AfterGet : AppState := (routeGetOrder c4Start "o1" "u1" "USER" 0).2

/-- State after the admin's successful status update to PAID (which calls
invalidateOrderCache). -/
def c4AfterUpdate : AppState :=
  match updateOrderStatusApp c4AfterGet "o1" OrderStatus.PAID none 1 with
  | Except.ok (st, _) => st
  | Except.error _ => c4AfterGet

/-- A payment already in the terminal SUCCESS state, carrying provider
transaction id t1. -/
def terminalPayment : PaymentRow :=
  { samplePayment with status := PaymentStatus.SUCCESS, transaction_id := some "t1" }

/-- A database holding the sample order and the terminal payment. -/
def terminalDB : DB :=
  { orders := [sampleOrder], payments := [terminalPayment], webhook_retry_log := [] }

/-- The retry-log row recorded by a failed non-final attempt when the
attempt's first storage query throws a transient error. -/
def transientRetryRow (pid oid : String) (attempt now : Nat) : RetryLogRow :=
  { payment_id := pid, order_id := oid, attempt_number := attempt,
    error_message := "transient storage failure",
    retry_at := some (now + 2 ^ attempt * 1000), final_failure := false,
    created_at := now }

/-- The final-failure retry-log row recorded by the dead-letter branch. -/
def transientFinalRow (pid oid : String) (attempt now : Nat) : RetryLogRow :=
  { payment_id := pid, order_id := oid, attempt_number := attempt,
    error_message := "Max retries exceeded: transient storage failure",
    retry_at := none, final_failure := true, created_at := now }


/-! ## Helper lemmas -/

lemma foldl_add_map (items : List OrderItem) (a : Int) :
    items.foldl (fun sum item => sum + item.price * item.quantity) a
      = a + (items.map (fun i => i.price * i.quantity)).sum := by
  induction items generalizing a with
  | nil => simp
  | cons x xs ih => simp [ih]; ring

lemma computeTotal_eq_sum (items : List OrderItem) :
    computeTotal items = (items.map (fun i => i.price * i.quantity)).sum := by
  simpa [computeTotal] using foldl_add_map items 0

lemma find?_map_pred_inv {α : Type} (f : α → α) (p : α → Bool)
    (hf : ∀ x, p (f x) = p x) (l : List α) :
    (l.map f).find? p = (l.find? p).map f := by
  induction l with
  | nil => simp
  | cons x xs ih =>
    by_cases h : p x = true
    · simp [List.find?_cons, hf, h]
    · simp only [List.map_cons, List.find?_cons, hf, h]
      simpa [h] using ih

lemma filter_map_head_pred_inv {α : Type} (f : α → α) (p : α → Bool)
    (hf : ∀ x, p (f x) = p x) (l : List α) (cur : α) (h : l.find? p = some cur) :
    ∃ rest, (l.map f).filter p = f cur :: rest := by
  induction l with
  | nil => simp at h
  | cons x xs ih =>
    rw [List.find?_cons] at h
    by_cases hx : p x = true
    · simp only [hx] at h
      injection h with h
      subst h
      refine ⟨(xs.map f).filter p, ?_⟩
      rw [List.map_cons, List.filter_cons]
      simp [hf, hx]
    · rw [Bool.not_eq_true] at hx
      simp only [hx] at h
      obtain ⟨rest, hr⟩ := ih h
      refine ⟨rest, ?_⟩
      rw [List.map_cons, List.filter_cons]
      simp [hf, hx, hr]

lemma updRow_id_pred (oid : String) (s : OrderStatus) (now : Nat) (o : OrderRow) :
    (((fun o => if o.id == oid then
        { o with status := s, version := o.version + 1, updated_at := now }
      else o) o).id == oid) = (o.id == oid) := by
  by_cases h : (o.id == oid) = true <;> simp [h]

lemma updateOrderStatus_ok (db : DB) (oid : String) (s : OrderStatus) (v : Option Int)
    (now : Nat) (cur : OrderRow) (h : selectOrderById db oid = some cur)
    (hv : versionCheckFails cur v = false) :
    updateOrderStatus db oid s v now =
      Except.ok ((updateStatement db oid s now).1,
        { cur with status := s, version := cur.version + 1, updated_at := now }) := by
  have h2 : db.orders.find? (fun o => o.id == oid) = some cur := h
  have hcur : (cur.id == oid) = true := by
    have h3 := List.find?_some (p := fun (o : OrderRow) => o.id == oid) h2
    simpa using h3
  obtain ⟨rest, hr⟩ := filter_map_head_pred_inv
    (fun o => if o.id == oid then
      { o with status := s, version := o.version + 1, updated_at := now } else o)
    (fun o => o.id == oid) (updRow_id_pred oid s now) db.orders cur h2
  simp only [hcur, if_true] at hr
  simp only [updateOrderStatus, h, hv, Bool.false_eq_true, if_false, updateStatement]
  rw [hr]

/-! ## Claim C2 -/

/-- Claim C2, counterexample: the claim states that every call supplying an
`expectedVersion` different from the current version fails with a Conflict
and performs no write.  On the code, supplying the (different) expected
version 0 against an order at version 1 does not raise a Conflict: the JS
truthiness test `if (currentVersion && ...)` skips the check for 0, the
UPDATE runs, and the stored version becomes 2. -/
theorem c2_counterexample :
    selectOrderById sampleDB "o1" = some sampleOrder
    ∧ sampleOrder.version = 1
    ∧ (updateOrderStatus sampleDB "o1" OrderStatus.PAID (some 0) 5).map
        (fun p => p.2.version)
      = Except.ok 2 := by
  refine ⟨by decide, by decide, by decide⟩

/-- Claim C2 (amended): updateOrderStatus fails with NotFound when no row
has the given id, and fails with a Conflict — returning an error, hence
performing no write — whenever a nonzero expectedVersion different from the
row's current version is supplied.  (Amendment forced by the
counterexample: an expectedVersion of 0 is falsy in JS and bypasses the
check, so "different from the current version" must exclude 0.) -/
theorem c2_version_mismatch_conflict (db : DB) (oid : String) (s : OrderStatus)
    (v : Int) (now : Nat) :
    (selectOrderById db oid = none →
      updateOrderStatus db oid s (some v) now = Except.error SvcError.notFound)
    ∧ (∀ cur, selectOrderById db oid = some cur → v ≠ 0 → cur.version ≠ v →
      updateOrderStatus db oid s (some v) now = Except.error SvcError.conflict) := by
  constructor
  · intro h
    simp [updateOrderStatus, h]
  · intro cur h hv hne
    have hc : versionCheckFails cur (some v) = true := by
      simp [versionCheckFails, versionTruthy, bne_iff_ne, hv, hne]
    simp [updateOrderStatus, h, hc]

/-- Witness for C2: at a one-order database with version 1, an expected
version of 7 (nonzero, different) yields the Conflict error. -/
theorem c2_version_mismatch_conflict_witness :
    selectOrderById sampleDB "o1" = some sampleOrder
    ∧ (7 : Int) ≠ 0 ∧ sampleOrder.version ≠ 7
    ∧ updateOrderStatus sampleDB "o1" OrderStatus.PAID (some 7) 5
      = Except.error SvcError.conflict :=
  ⟨by decide, by decide, by decide,
    (c2_version_mismatch_conflict sampleDB "o1" OrderStatus.PAID 7 5).2 sampleOrder
      (by decide) (by decide) (by decide)⟩

/-! ## Claim C10 -/

/-- Claim C10: an expectedVersion of 0 is treated exactly like an absent
version (tolerant mode): the call is computed identically to the no-version
call, never raises Conflict, and the update proceeds, incrementing the
version, even though the current version differs from 0. -/
theorem c10_zero_version_tolerant (db : DB) (oid : String) (s : OrderStatus)
    (now : Nat) (cur : OrderRow) (h : selectOrderById db oid = some cur) :
    updateOrderStatus db oid s (some 0) now = updateOrderStatus db oid s none now
    ∧ updateOrderStatus db oid s (some 0) now =
        Except.ok ((updateStatement db oid s now).1,
          { cur with status := s, version := cur.version + 1, updated_at := now }) := by
  have h0 : versionCheckFails cur (some 0) = false := by
    simp [versionCheckFails, versionTruthy]
  have hn : versionCheckFails cur none = false := by
    simp [versionCheckFails, versionTruthy]
  exact ⟨by rw [updateOrderStatus_ok db oid s (some 0) now cur h h0,
      updateOrderStatus_ok db oid s none now cur h hn],
    updateOrderStatus_ok db oid s (some 0) now cur h h0⟩

/-- Witness for C10 at a concrete one-order database with current version 1:
supplying version 0 behaves exactly like supplying none. -/
theorem c10_zero_version_tolerant_witness :
    selectOrderById sampleDB "o1" = some sampleOrder
    ∧ updateOrderStatus sampleDB "o1" OrderStatus.PAID (some 0) 5
      = updateOrderStatus sampleDB "o1" OrderStatus.PAID none 5 :=
  ⟨by decide,
    (c10_zero_version_tolerant sampleDB "o1" OrderStatus.PAID 5 sampleOrder (by decide)).1⟩

/-! ## Claim C9 -/

lemma map_total_inv (l : List OrderRow) (f : OrderRow → OrderRow)
    (hf : ∀ o, (f o).total_amount = o.total_amount) :
    (l.map f).map (fun o => o.total_amount) = l.map (fun o => o.total_amount) := by
  induction l with
  | nil => rfl
  | cons x xs ih => simp [hf, ih]

/-- Claim C9: a freshly created order's total_amount is the sum over the
items of price × quantity, and neither updateOrderStatus nor the webhook
processor's apply step ever changes any order's total_amount. -/
theorem c9_total_amount_immutable :
    (∀ (db : DB) (userId : String) (items : List OrderItem) (tok nid : String) (now : Nat),
      findByToken db tok = none →
      (createOrderService db db userId items tok nid now).map (fun p => p.2.total_amount)
        = Except.ok ((items.map (fun i => i.price * i.quantity)).sum))
    ∧ (∀ (db : DB) (oid : String) (s : OrderStatus) (v : Option Int) (now : Nat)
        (db2 : DB) (r : OrderRow),
      updateOrderStatus db oid s v now = Except.ok (db2, r) →
      db2.orders.map (fun o => o.total_amount) = db.orders.map (fun o => o.total_amount))
    ∧ (∀ (db : DB) (pid oid : String) (st : PaymentStatus) (tid fr : Option String)
        (now : Nat) (db2 : DB),
      applyWebhook db pid oid st tid fr now = Except.ok db2 →
      db2.orders.map (fun o => o.total_amount) = db.orders.map (fun o => o.total_amount)) := by
  refine ⟨?_, ?_, ?_⟩
  · intro db userId items tok nid now h
    have h2 : db.orders.find? (fun o => o.client_token == tok) = none := h
    have hany : (db.orders.any (fun o => o.client_token == tok)) = false := by
      rw [List.any_eq_false]
      intro x hx
      have h3 := List.find?_eq_none.mp h2 x hx
      simpa using h3
    simp [createOrderService, findByToken, insertOrder, h2, hany,
      computeTotal_eq_sum, Except.map]
  · intro db oid s v now db2 r hupd
    unfold updateOrderStatus at hupd
    rw [show selectOrderById db oid = selectOrderById db oid from rfl] at hupd
    cases hsel : selectOrderById db oid with
    | none => rw [hsel] at hupd; simp at hupd
    | some cur =>
      rw [hsel] at hupd
      dsimp only at hupd
      by_cases hv : versionCheckFails cur v = true
      · rw [if_pos hv] at hupd; simp at hupd
      · rw [if_neg hv] at hupd
        cases hmatch : (updateStatement db oid s now).2 with
        | nil =>
          rw [show updateStatement db oid s now
              = ((updateStatement db oid s now).1, (updateStatement db oid s now).2)
            from rfl, hmatch] at hupd
          simp at hupd
        | cons r0 rest =>
          rw [show updateStatement db oid s now
              = ((updateStatement db oid s now).1, (updateStatement db oid s now).2)
            from rfl, hmatch] at hupd
          dsimp only at hupd
          injection hupd with hpair
          have hdb : db2 = (updateStatement db oid s now).1 := by
            have h4 := congrArg Prod.fst hpair
            simpa using h4.symm
          subst hdb
          simp only [updateStatement]
          exact map_total_inv db.orders _ (fun o => by
            by_cases ho : (o.id == oid) = true <;> simp [ho])
  · intro db pid oid st tid fr now db2 happ
    unfold applyWebhook at happ
    cases hfind : db.payments.find? (fun p => p.payment_id == pid) with
    | none => rw [hfind] at happ; simp at happ
    | some cur =>
      rw [hfind] at happ
      dsimp only at happ
      by_cases hgate : (cur.status != PaymentStatus.PENDING &&
          txnTripleEq cur.transaction_id tid) = true
      · rw [if_pos hgate] at happ
        injection happ with happ
        subst happ
        rfl
      · rw [if_neg hgate] at happ
        injection happ with happ
        subst happ
        unfold applyWebhookWrites
        by_cases hs : (st == PaymentStatus.SUCCESS) = true
        · simp only [cleanupExpiredPayments, hs, if_true]
          exact map_total_inv db.orders (webhookOrderPaid oid now) (fun o => by
            by_cases ho : (o.id == oid) = true <;> simp [webhookOrderPaid, ho])
        · simp [cleanupExpiredPayments, hs]

/-- Witness for C9: the spec's running example — items `[{A1, qty 2, price
500}]` yield total 1000 on the fresh create. -/
theorem c9_total_amount_immutable_witness :
    findByToken { orders := [], payments := [], webhook_retry_log := [] } "tok-1" = none
    ∧ (createOrderService { orders := [], payments := [], webhook_retry_log := [] }
          { orders := [], payments := [], webhook_retry_log := [] }
          "u1" sampleItems "tok-1" "o1" 0).map (fun p => p.2.total_amount)
      = Except.ok ((sampleItems.map (fun i => i.price * i.quantity)).sum) :=
  ⟨by decide,
    c9_total_amount_immutable.1 { orders := [], payments := [], webhook_retry_log := [] }
      "u1" sampleItems "tok-1" "o1" 0 (by decide)⟩

/-! ## Claim C1 -/

lemma mem_insertDesc (o x : OrderRow) (l : List OrderRow) (h : x ∈ insertDesc o l) :
    x = o ∨ x ∈ l := by
  induction l with
  | nil => simpa [insertDesc] using h
  | cons y ys ih =>
    rw [insertDesc] at h
    by_cases hc : o.created_at ≤ y.created_at
    · rw [if_pos hc] at h
      rcases List.mem_cons.mp h with h1 | h2
      · exact Or.inr (h1 ▸ List.mem_cons_self _ _)
      · rcases ih h2 with h3 | h4
        · exact Or.inl h3
        · exact Or.inr (List.mem_cons_of_mem _ h4)
    · rw [if_neg hc] at h
      rcases List.mem_cons.mp h with h1 | h2
      · exact Or.inl h1
      · exact Or.inr h2

lemma mem_sortByCreatedDesc (x : OrderRow) (l : List OrderRow)
    (h : x ∈ sortByCreatedDesc l) : x ∈ l := by
  induction l with
  | nil => simpa [sortByCreatedDesc] using h
  | cons y ys ih =>
    have h2 : x ∈ insertDesc y (sortByCreatedDesc ys) := h
    rcases mem_insertDesc y x _ h2 with h3 | h4
    · exact h3 ▸ List.mem_cons_self _ _
    · exact List.mem_cons_of_mem _ (ih h4)

lemma mem_getOrdersDefaultPage (db : DB) (userId role : String) (w : OrderRow)
    (h : w ∈ getOrdersDefaultPage db userId role) : w ∈ db.orders := by
  unfold getOrdersDefaultPage at h
  by_cases hr : (role != "ADMIN" && userId != "") = true
  · rw [if_pos hr] at h
    have h2 := mem_sortByCreatedDesc w _ (List.take_subset _ _ h)
    exact List.mem_of_mem_filter h2
  · rw [if_neg hr] at h
    exact mem_sortByCreatedDesc w _ (List.take_subset _ _ h)

/-- Claim C1 (amended): (1) when an order with the given clientToken already
exists at read time, createOrder returns that row unchanged and inserts
nothing; (2) when a concurrent insert loses the uniqueness race on
client_token, the POST /orders handler catches the duplicate-key error and
resolves it by re-listing the caller's orders and returning the matching
row, with no duplicate created — provided the winner's row is visible in
the first page of the caller's own listing.  (Amendment forced by the
counterexample: the recovery lookup is scoped to the caller's first listing
page, so a winner row it does not surface — e.g. one owned by a different
user — makes the handler return a generic server error instead.) -/
theorem c1_idempotent_create_and_race_recovery :
    (∀ (db : DB) (userId : String) (items : List OrderItem) (tok nid : String)
        (now : Nat) (row : OrderRow), findByToken db tok = some row →
      createOrderService db db userId items tok nid now = Except.ok (db, row))
    ∧ (∀ (dbRead dbWrite : DB) (userId role : String) (items : List OrderItem)
        (tok nid : String) (now : Nat) (w : OrderRow),
      findByToken dbRead tok = none →
      (getOrdersDefaultPage dbWrite userId role).find? (fun o => o.client_token == tok)
        = some w →
      routePostOrders dbRead dbWrite userId role items tok nid now
        = (CreateResp.okExisting w, dbWrite)) := by
  constructor
  · intro db userId items tok nid now row h
    simp [createOrderService, h]
  · intro dbRead dbWrite userId role items tok nid now w hnone hfind
    have hw_mem : w ∈ getOrdersDefaultPage dbWrite userId role :=
      List.mem_of_find?_eq_some hfind
    have hw_tok : (w.client_token == tok) = true := by
      have h3 := List.find?_some (p := fun (o : OrderRow) => o.client_token == tok) hfind
      simpa using h3
    have hmem : w ∈ dbWrite.orders := mem_getOrdersDefaultPage _ _ _ _ hw_mem
    have hany : dbWrite.orders.any (fun o => o.client_token == tok) = true :=
      List.any_eq_true.mpr ⟨w, hmem, hw_tok⟩
    have hc1 : containsSub
        "duplicate key value violates unique constraint \"orders_client_token_key\""
        "duplicate key" = true := by decide
    have hc2 : containsSub
        "duplicate key value violates unique constraint \"orders_client_token_key\""
        "client_token" = true := by decide
    simp [routePostOrders, createOrderService, insertOrder, hnone, hany,
      SvcError.message, hc1, hc2, hfind]

/-- Claim C1, counterexample to the claim as stated: a non-admin caller
(userA) loses the client_token uniqueness race to a row owned by a
different user (userB).  The handler catches the duplicate-key error and
re-lists userA's orders, but the winner's row is not among them, so the
caller receives the generic 500 — the uniqueness failure does surface and
the winner's row is not returned. -/
theorem c1_counterexample :
    findByToken emptyDB "tok-9" = none
    ∧ findByToken raceDBForeign "tok-9" = some raceWinnerB
    ∧ routePostOrders emptyDB raceDBForeign "userA" "USER" sampleItems "tok-9" "n1" 5
      = (CreateResp.serverError, raceDBForeign) := by
  refine ⟨by decide, by decide, by decide⟩

/-- Witness for C1: the replay branch at the sample database, and the
recovery branch for a same-owner race whose winner row is on the caller's
first page. -/
theorem c1_idempotent_create_and_race_recovery_witness :
    findByToken sampleDB "tok-1" = some sampleOrder
    ∧ createOrderService sampleDB sampleDB "u1" sampleItems "tok-1" "n1" 5
      = Except.ok (sampleDB, sampleOrder)
    ∧ findByToken emptyDB "tok-9" = none
    ∧ (getOrdersDefaultPage raceDBOwn "userA" "USER").find?
        (fun o => o.client_token == "tok-9") = some raceWinnerA
    ∧ routePostOrders emptyDB raceDBOwn "userA" "USER" sampleItems "tok-9" "n1" 5
      = (CreateResp.okExisting raceWinnerA, raceDBOwn) :=
  ⟨by decide,
    c1_idempotent_create_and_race_recovery.1 sampleDB "u1" sampleItems "tok-1" "n1" 5
      sampleOrder (by decide),
    by decide, by decide,
    c1_idempotent_create_and_race_recovery.2 emptyDB raceDBOwn "userA" "USER" sampleItems
      "tok-9" "n1" 5 raceWinnerA (by decide) (by decide)⟩

/-! ## Claim C3 -/

/-- Claim C3, evaluation at the failing interleaving: the claim states the
UPDATE's predicate includes the expected version so that of two concurrent
calls with the same stale expectedVersion exactly one succeeds.  The code
does read-then-write in two round trips and its UPDATE predicate is
`WHERE id` alone, so under the interleaving SELECT1, SELECT2, UPDATE1,
UPDATE2 both calls supplying expectedVersion 1 succeed: caller 1 sees
version 2, caller 2 sees version 3, and caller 2's write silently
overwrites caller 1's status. -/
theorem c3_both_stale_writers_succeed :
    (twoConcurrentUpdates sampleDB "o1" OrderStatus.PAID OrderStatus.CANCELLED
        (some 1) (some 1) 5 6).1
      = Except.ok { sampleOrder with
                    status := OrderStatus.PAID, version := 2, updated_at := 5 }
    ∧ (twoConcurrentUpdates sampleDB "o1" OrderStatus.PAID OrderStatus.CANCELLED
        (some 1) (some 1) 5 6).2.1
      = Except.ok { sampleOrder with
                    status := OrderStatus.CANCELLED, version := 3, updated_at := 6 }
    ∧ (twoConcurrentUpdates sampleDB "o1" OrderStatus.PAID OrderStatus.CANCELLED
        (some 1) (some 1) 5 6).2.2.orders
      = [{ sampleOrder with
           status := OrderStatus.CANCELLED, version := 3, updated_at := 6 }] := by
  refine ⟨by decide, by decide, by decide⟩

/-! ## Claim C4 -/

/-- Claim C4, evaluation at the failing input: the GET route reads through
the CacheService map, but invalidateOrderCache deletes from the separate,
never-populated `global.orderCache` map, so after a successful update to
PAID the very next GET (well inside the 30 s TTL) still returns the
PENDING snapshot cached before the update, while the store row is PAID. -/
theorem c4_stale_cache_after_update :
    (routeGetOrder c4Start "o1" "u1" "USER" 0).1.map (fun o => o.status)
      = some OrderStatus.PENDING
    ∧ (updateOrderStatusApp c4AfterGet "o1" OrderStatus.PAID none 1).map
        (fun p => (p.1, p.2.status))
      = Except.ok (c4AfterUpdate, OrderStatus.PAID)
    ∧ c4AfterUpdate.db.orders.map (fun o => o.status) = [OrderStatus.PAID]
    ∧ (routeGetOrder c4AfterUpdate "o1" "u1" "USER" 2).1.map (fun o => o.status)
      = some OrderStatus.PENDING := by
  refine ⟨by decide, by decide, by decide, by decide⟩

/-! ## Claim C5 -/

lemma applyWebhookWrites_log (db : DB) (pid oid : String) (st : PaymentStatus)
    (tid fr : Option String) (now : Nat) :
    (applyWebhookWrites db pid oid st tid fr now).webhook_retry_log
      = db.webhook_retry_log := by
  unfold applyWebhookWrites cleanupExpiredPayments
  by_cases hs : (st == PaymentStatus.SUCCESS) = true <;> simp [hs]

lemma applyWebhookWrites_payments (db : DB) (pid oid : String) (st : PaymentStatus)
    (tid fr : Option String) (now : Nat) :
    (applyWebhookWrites db pid oid st tid fr now).payments
      = (db.payments.map (webhookPayUpdate pid st tid fr now)).map
          (expirySweepRow now) := by
  unfold applyWebhookWrites cleanupExpiredPayments
  by_cases hs : (st == PaymentStatus.SUCCESS) = true <;> simp [hs]

lemma applyWebhookWrites_orders (db : DB) (pid oid : String) (st : PaymentStatus)
    (tid fr : Option String) (now : Nat) :
    (applyWebhookWrites db pid oid st tid fr now).orders
      = if st == PaymentStatus.SUCCESS then
          db.orders.map (webhookOrderPaid oid now)
        else db.orders := by
  unfold applyWebhookWrites cleanupExpiredPayments
  by_cases hs : (st == PaymentStatus.SUCCESS) = true <;> simp [hs]

lemma webhookPayUpdate_pid_pred (pid : String) (st : PaymentStatus)
    (tid fr : Option String) (now : Nat) (x : PaymentRow) :
    ((webhookPayUpdate pid st tid fr now x).payment_id == pid)
      = (x.payment_id == pid) := by
  unfold webhookPayUpdate
  by_cases hx : (x.payment_id == pid) = true <;> simp [hx]

lemma webhookPayUpdate_pid (pid : String) (st : PaymentStatus)
    (tid fr : Option String) (now : Nat) (x : PaymentRow) :
    (webhookPayUpdate pid st tid fr now x).payment_id = x.payment_id := by
  unfold webhookPayUpdate
  by_cases hx : (x.payment_id == pid) = true <;> simp [hx]

lemma expirySweepRow_pid (now : Nat) (x : PaymentRow) :
    (expirySweepRow now x).payment_id = x.payment_id := by
  unfold expirySweepRow
  by_cases hx : (x.status == PaymentStatus.PENDING && x.expires_at < now) = true <;>
    simp [hx]

/-- Claim C5: replay idempotence of the webhook apply step for an event
carrying a provider transaction id.  The first delivery against a PENDING
payment performs the write sequence — the payment transitions to the event
status with the transaction id stored, the order (on SUCCESS) transitions
to PAID, and no retry-log entry is written; the second delivery of the
same event hits the idempotency gate (payment already non-PENDING with the
matching stored transaction id), returns success, and leaves the state
exactly unchanged: no payment write, no order write, no retry-log entry. -/
theorem c5_webhook_replay_idempotent (db0 : DB) (pid oid : String)
    (st : PaymentStatus) (t : String) (fr : Option String) (now1 now2 : Nat)
    (p : PaymentRow)
    (hp : db0.payments.find? (fun q => q.payment_id == pid) = some p)
    (hpend : p.status = PaymentStatus.PENDING)
    (hst : st ≠ PaymentStatus.PENDING)
    (ht : t ≠ "") :
    applyWebhook db0 pid oid st (some t) fr now1
      = Except.ok (applyWebhookWrites db0 pid oid st (some t) fr now1)
    ∧ (applyWebhookWrites db0 pid oid st (some t) fr now1).webhook_retry_log
      = db0.webhook_retry_log
    ∧ (∀ q ∈ (applyWebhookWrites db0 pid oid st (some t) fr now1).payments,
        q.payment_id = pid → q.status = st ∧ q.transaction_id = some t)
    ∧ (st = PaymentStatus.SUCCESS →
        ∀ o ∈ (applyWebhookWrites db0 pid oid st (some t) fr now1).orders,
          o.id = oid → o.status = OrderStatus.PAID)
    ∧ applyWebhook (applyWebhookWrites db0 pid oid st (some t) fr now1) pid oid st
        (some t) fr now2
      = Except.ok (applyWebhookWrites db0 pid oid st (some t) fr now1) := by
  have hjs : jsOrNull (some t) = some t := by simp [jsOrNull, ht]
  have hstb : (st == PaymentStatus.PENDING) = false := by
    cases st <;> first | (exact absurd rfl hst) | rfl
  have hgate1 : ¬((p.status != PaymentStatus.PENDING &&
      txnTripleEq p.transaction_id (some t)) = true) := by
    rw [hpend]
    intro hcontra
    rw [show (PaymentStatus.PENDING != PaymentStatus.PENDING) = false from rfl] at hcontra
    simp at hcontra
  refine ⟨?_, applyWebhookWrites_log db0 pid oid st (some t) fr now1, ?_, ?_, ?_⟩
  · unfold applyWebhook
    rw [hp]
    dsimp only
    rw [if_neg hgate1]
  · intro q hq hqid
    rw [applyWebhookWrites_payments] at hq
    obtain ⟨q1, hq1mem, hq1eq⟩ := List.mem_map.mp hq
    obtain ⟨x, hxmem, hxeq⟩ := List.mem_map.mp hq1mem
    subst hq1eq
    subst hxeq
    by_cases hx : (x.payment_id == pid) = true
    · have hq1 : webhookPayUpdate pid st (some t) fr now1 x
          = { x with status := st, transaction_id := some t,
                     failure_reason := jsOrNull fr, updated_at := now1,
                     processed_at := some now1 } := by
        unfold webhookPayUpdate
        rw [if_pos hx, hjs]
      rw [hq1]
      unfold expirySweepRow
      simp [hstb]
    · exfalso
      apply hx
      rw [expirySweepRow_pid, webhookPayUpdate_pid] at hqid
      simp [hqid]
  · intro hsucc o ho hoid
    rw [applyWebhookWrites_orders] at ho
    rw [if_pos (by rw [hsucc]; rfl)] at ho
    obtain ⟨x, hxmem, hxeq⟩ := List.mem_map.mp ho
    subst hxeq
    by_cases hx : (x.id == oid) = true
    · unfold webhookOrderPaid
      rw [if_pos hx]
    · exfalso
      unfold webhookOrderPaid at hoid
      rw [if_neg hx] at hoid
      exact hx (by simp [hoid])
  · have hpid : (p.payment_id == pid) = true := by
      have h3 := List.find?_some (p := fun (q : PaymentRow) => q.payment_id == pid) hp
      simpa using h3
    have hfind2 : (applyWebhookWrites db0 pid oid st (some t) fr now1).payments.find?
        (fun q => q.payment_id == pid)
        = some (expirySweepRow now1 (webhookPayUpdate pid st (some t) fr now1 p)) := by
      rw [applyWebhookWrites_payments]
      rw [find?_map_pred_inv (expirySweepRow now1)
        (fun (q : PaymentRow) => q.payment_id == pid)
        (fun x => by simp [expirySweepRow_pid])
        (db0.payments.map (webhookPayUpdate pid st (some t) fr now1))]
      rw [find?_map_pred_inv (webhookPayUpdate pid st (some t) fr now1)
        (fun (q : PaymentRow) => q.payment_id == pid)
        (webhookPayUpdate_pid_pred pid st (some t) fr now1)
        db0.payments]
      rw [hp]
      rfl
    have hupd : webhookPayUpdate pid st (some t) fr now1 p
        = { p with status := st, transaction_id := some t,
                   failure_reason := jsOrNull fr, updated_at := now1,
                   processed_at := some now1 } := by
      unfold webhookPayUpdate
      rw [if_pos hpid, hjs]
    have hsweep : expirySweepRow now1 (webhookPayUpdate pid st (some t) fr now1 p)
        = webhookPayUpdate pid st (some t) fr now1 p := by
      rw [hupd]
      unfold expirySweepRow
      simp [hstb]
    unfold applyWebhook
    rw [hfind2, hsweep, hupd]
    dsimp only
    rw [if_pos (by simp [bne, hstb, txnTripleEq])]

/-- Witness for C5: the SUCCESS event with transaction id t1 delivered
twice against the sample PENDING payment — the second delivery returns the
state produced by the first, unchanged. -/
theorem c5_webhook_replay_idempotent_witness :
    samplePayDB.payments.find? (fun q => q.payment_id == "p1") = some samplePayment
    ∧ samplePayment.status = PaymentStatus.PENDING
    ∧ PaymentStatus.SUCCESS ≠ PaymentStatus.PENDING
    ∧ "t1" ≠ ""
    ∧ applyWebhook samplePayDB "p1" "o1" PaymentStatus.SUCCESS (some "t1") none 7
      = Except.ok
          (applyWebhookWrites samplePayDB "p1" "o1" PaymentStatus.SUCCESS (some "t1") none 7)
    ∧ applyWebhook
        (applyWebhookWrites samplePayDB "p1" "o1" PaymentStatus.SUCCESS (some "t1") none 7)
        "p1" "o1" PaymentStatus.SUCCESS (some "t1") none 9
      = Except.ok
          (applyWebhookWrites samplePayDB "p1" "o1" PaymentStatus.SUCCESS (some "t1") none 7) :=
  ⟨by decide, by decide, by decide, by decide,
    (c5_webhook_replay_idempotent samplePayDB "p1" "o1" PaymentStatus.SUCCESS "t1" none 7 9
      samplePayment (by decide) (by decide) (by decide) (by decide)).1,
    (c5_webhook_replay_idempotent samplePayDB "p1" "o1" PaymentStatus.SUCCESS "t1" none 7 9
      samplePayment (by decide) (by decide) (by decide) (by decide)).2.2.2.2⟩

/-! ## Claim C8 -/

/-- Claim C8, counterexample: the claim states a payment in a terminal
state is never re-transitioned, even by a verified event carrying a
different transaction identifier.  On the code, a FAILED event with
transaction id t2 arriving for the SUCCESS payment stored with t1 slips
past the idempotency gate (the transaction ids differ) and overwrites the
payment to FAILED. -/
theorem c8_counterexample :
    terminalPayment.status = PaymentStatus.SUCCESS
    ∧ terminalPayment.transaction_id = some "t1"
    ∧ (applyWebhook terminalDB "p1" "o1" PaymentStatus.FAILED (some "t2") none 7).map
        (fun d => d.payments.map (fun q => (q.status, q.transaction_id)))
      = Except.ok [(PaymentStatus.FAILED, some "t2")] := by
  refine ⟨by decide, by decide, by decide⟩

/-- Claim C8 (amended): once a payment is non-PENDING, a verified webhook
event whose transaction identifier strictly equals the stored one performs
no write at all — the apply step returns success with the database exactly
unchanged.  (Amendment forced by the counterexample: an event carrying a
different — or absent — transaction identifier does overwrite the payment's
status, so terminality holds only against matching-transaction
redeliveries.) -/
theorem c8_terminal_noop_on_matching_txn (db : DB) (pid oid : String)
    (st : PaymentStatus) (tid fr : Option String) (now : Nat) (p : PaymentRow)
    (hp : db.payments.find? (fun q => q.payment_id == pid) = some p)
    (hnp : p.status ≠ PaymentStatus.PENDING)
    (htx : txnTripleEq p.transaction_id tid = true) :
    applyWebhook db pid oid st tid fr now = Except.ok db := by
  have hb : (p.status != PaymentStatus.PENDING) = true := by
    revert hnp
    cases p.status <;> intro hnp <;> first | (exact absurd rfl hnp) | rfl
  unfold applyWebhook
  rw [hp]
  dsimp only
  rw [if_pos (by rw [hb, htx]; rfl)]

/-- Witness for C8: a SUCCESS-status redelivery carrying the matching
transaction id t1 leaves the terminal database untouched. -/
theorem c8_terminal_noop_on_matching_txn_witness :
    terminalDB.payments.find? (fun q => q.payment_id == "p1") = some terminalPayment
    ∧ terminalPayment.status ≠ PaymentStatus.PENDING
    ∧ txnTripleEq terminalPayment.transaction_id (some "t1") = true
    ∧ applyWebhook terminalDB "p1" "o1" PaymentStatus.SUCCESS (some "t1") none 7
      = Except.ok terminalDB :=
  ⟨by decide, by decide, by decide,
    c8_terminal_noop_on_matching_txn terminalDB "p1" "o1" PaymentStatus.SUCCESS
      (some "t1") none 7 terminalPayment (by decide) (by decide) (by decide)⟩

/-! ## Claim C6 -/

/-- Claim C6: webhook verification is a hard gate with no side effects on
failure.  For every request missing a header, or whose timestamp parses to
a value more than 300 seconds from current time, or whose signature (after
stripping the algorithm prefix) differs from the HMAC recomputed over
"{timestamp}.{rawPayloadJSON}", the route rejects (its response is never
success — a length mismatch surfaces as the caught timingSafeEqual
exception, i.e. a 500) and returns the database exactly as it was: no
payment row and no order row is mutated. -/
theorem c6_verification_gate_no_side_effects
    (hmac : String → String → String) (secret : String) (hfail : Nat → Bool)
    (db : DB) (sigHeader tsHeader : Option String) (payload : String)
    (payment_id : Option String) (order_id : String) (status : Option PaymentStatus)
    (tid fr : Option String) (nowSec : Int) (nowMs : Nat)
    (hrej : sigHeader = none ∨ tsHeader = none
      ∨ timestampTooFar nowSec (tsHeader.getD "") = true
      ∨ replaceFirst (sigHeader.getD "") "sha256="
          ≠ hmac secret ((tsHeader.getD "") ++ "." ++ payload)) :
    (webhookRoute hmac secret hfail db sigHeader tsHeader payload payment_id order_id
        status tid fr nowSec nowMs).2 = db
    ∧ (webhookRoute hmac secret hfail db sigHeader tsHeader payload payment_id order_id
        status tid fr nowSec nowMs).1 ≠ WebhookResp.success := by
  unfold webhookRoute
  by_cases h1 : (jsFalsyStr sigHeader || jsFalsyStr tsHeader) = true
  · rw [if_pos h1]
    exact ⟨rfl, by simp⟩
  · rw [if_neg h1]
    by_cases h2 : timestampTooFar nowSec (tsHeader.getD "") = true
    · rw [if_pos h2]
      exact ⟨rfl, by simp⟩
    · rw [if_neg h2]
      by_cases h3 : ((replaceFirst (sigHeader.getD "") "sha256=").length
          != (hmac secret ((tsHeader.getD "") ++ "." ++ payload)).length) = true
      · rw [if_pos h3]
        exact ⟨rfl, by simp⟩
      · rw [if_neg h3]
        by_cases h4 : (replaceFirst (sigHeader.getD "") "sha256="
            != hmac secret ((tsHeader.getD "") ++ "." ++ payload)) = true
        · rw [if_pos h4]
          exact ⟨rfl, by simp⟩
        · exfalso
          rcases hrej with h5 | h5 | h5 | h5
          · exact h1 (by rw [h5]; rfl)
          · apply h1
            rw [h5]
            simp [jsFalsyStr]
          · exact h2 h5
          · apply h4
            simp only [bne_iff_ne]
            exact h5

/-- Witness for C6: a request with no signature header is rejected with no
state change. -/
theorem c6_verification_gate_no_side_effects_witness :
    ((none : Option String) = none
      ∨ (some "10" : Option String) = none
      ∨ timestampTooFar 10 ((some "10" : Option String).getD "") = true
      ∨ replaceFirst ((none : Option String).getD "") "sha256="
          ≠ (fun k m => k ++ m) "sec" (((some "10" : Option String).getD "") ++ "." ++ "x"))
    ∧ (webhookRoute (fun k m => k ++ m) "sec" (fun _ => false) samplePayDB none (some "10")
        "x" (some "p1") "o1" (some PaymentStatus.SUCCESS) (some "t1") none 10 10).2
      = samplePayDB
    ∧ (webhookRoute (fun k m => k ++ m) "sec" (fun _ => false) samplePayDB none (some "10")
        "x" (some "p1") "o1" (some PaymentStatus.SUCCESS) (some "t1") none 10 10).1
      ≠ WebhookResp.success :=
  ⟨Or.inl rfl,
    (c6_verification_gate_no_side_effects (fun k m => k ++ m) "sec" (fun _ => false)
      samplePayDB none (some "10") "x" (some "p1") "o1" (some PaymentStatus.SUCCESS)
      (some "t1") none 10 10 (Or.inl rfl)).1,
    (c6_verification_gate_no_side_effects (fun k m => k ++ m) "sec" (fun _ => false)
      samplePayDB none (some "10") "x" (some "p1") "o1" (some PaymentStatus.SUCCESS)
      (some "t1") none 10 10 (Or.inl rfl)).2⟩

/-! ## Claim C7 -/

lemma webhookAttempt_fail_retry (hfail : Nat → Bool) (db : DB) (pid oid : String)
    (st : PaymentStatus) (tid fr : Option String) (now attempt : Nat)
    (hf : hfail attempt = true) (hlt : attempt < maxRetries) :
    webhookAttempt hfail db pid oid st tid fr now attempt
      = (insertRetryLog db (transientRetryRow pid oid attempt now),
         AttemptOutcome.retryScheduled (attempt + 1) (2 ^ attempt * 1000)) := by
  unfold webhookAttempt transientRetryRow
  rw [if_pos hf]
  dsimp only
  rw [if_pos hlt]

lemma webhookAttempt_fail_dead (hfail : Nat → Bool) (db : DB) (pid oid : String)
    (st : PaymentStatus) (tid fr : Option String) (now attempt : Nat)
    (hf : hfail attempt = true) (hge : ¬ attempt < maxRetries) :
    webhookAttempt hfail db pid oid st tid fr now attempt
      = (markPaymentFailed (insertRetryLog db (transientFinalRow pid oid attempt now))
           pid now,
         AttemptOutcome.deadLetterRethrow "transient storage failure") := by
  unfold webhookAttempt transientFinalRow
  rw [if_pos hf]
  dsimp only
  rw [if_neg hge]
  rfl

lemma runChainFrom_retry (hfail : Nat → Bool) (db db2 : DB) (pid oid : String)
    (st : PaymentStatus) (tid fr : Option String) (now attempt next d : Nat)
    (h : webhookAttempt hfail db pid oid st tid fr now attempt
      = (db2, AttemptOutcome.retryScheduled next d)) :
    runChainFrom hfail db pid oid st tid fr now attempt
      = runChainFrom hfail db2 pid oid st tid fr now next := by
  rw [runChainFrom.eq_def]
  split
  · rename_i db3 heq
    rw [h] at heq
    simp at heq
  · rename_i db3 msg heq
    rw [h] at heq
    simp at heq
  · rename_i db3 next2 d2 heq
    rw [h] at heq
    injection heq with heq1 heq2
    injection heq2 with heq3 heq4
    subst heq1
    subst heq3
    rfl

lemma runChainFrom_dead (hfail : Nat → Bool) (db db2 : DB) (pid oid : String)
    (st : PaymentStatus) (tid fr : Option String) (now attempt : Nat) (e : String)
    (h : webhookAttempt hfail db pid oid st tid fr now attempt
      = (db2, AttemptOutcome.deadLetterRethrow e)) :
    runChainFrom hfail db pid oid st tid fr now attempt
      = { db := db2, attemptsRun := attempt, unhandledRethrow := true } := by
  rw [runChainFrom.eq_def]
  split
  · rename_i db3 heq
    rw [h] at heq
    simp at heq
  · rename_i db3 msg heq
    rw [h] at heq
    injection heq with heq1 heq2
    injection heq2 with heq3
    subst heq1
    rfl
  · rename_i db3 next2 d2 heq
    rw [h] at heq
    simp at heq

/-- Claim C7: dead-letter termination.  When every apply attempt throws (a
transient storage failure at the attempt's first query), the chain runs
exactly maxRetries = 3 attempts — recording a retry-log row with retry time
now + 2^attempt seconds after attempts 1 and 2 — then records the
final-failure row, marks the payment FAILED with the standard reason, and
stops.  The rethrow of the final attempt happens inside the detached timer
callback (unhandledRethrow), and the HTTP caller, who awaited only attempt
1, sees a normal return: the original error is never propagated past the
retry boundary. -/
theorem c7_dead_letter_termination (db : DB) (pid oid : String) (st : PaymentStatus)
    (tid fr : Option String) (now : Nat) :
    runChainFrom (fun _ => true) db pid oid st tid fr now 1
      = { db := markPaymentFailed (insertRetryLog (insertRetryLog (insertRetryLog db
              (transientRetryRow pid oid 1 now)) (transientRetryRow pid oid 2 now))
              (transientFinalRow pid oid 3 now)) pid now,
          attemptsRun := 3, unhandledRethrow := true }
    ∧ (runChainFrom (fun _ => true) db pid oid st tid fr now 1).db.webhook_retry_log
      = db.webhook_retry_log ++ [transientRetryRow pid oid 1 now,
          transientRetryRow pid oid 2 now, transientFinalRow pid oid 3 now]
    ∧ (∀ q ∈ (runChainFrom (fun _ => true) db pid oid st tid fr now 1).db.payments,
        q.payment_id = pid → q.status = PaymentStatus.FAILED
          ∧ q.failure_reason = some "Webhook processing failed after maximum retries")
    ∧ callerSeesNormalReturn (fun _ => true) db pid oid st tid fr now = true := by
  have hstep1 := webhookAttempt_fail_retry (fun _ => true) db pid oid st tid fr now 1
    rfl (by decide)
  have hstep2 := webhookAttempt_fail_retry (fun _ => true)
    (insertRetryLog db (transientRetryRow pid oid 1 now)) pid oid st tid fr now 2
    rfl (by decide)
  have hstep3 := webhookAttempt_fail_dead (fun _ => true)
    (insertRetryLog (insertRetryLog db (transientRetryRow pid oid 1 now))
      (transientRetryRow pid oid 2 now)) pid oid st tid fr now 3
    rfl (by decide)
  have hmain : runChainFrom (fun _ => true) db pid oid st tid fr now 1
      = { db := markPaymentFailed (insertRetryLog (insertRetryLog (insertRetryLog db
              (transientRetryRow pid oid 1 now)) (transientRetryRow pid oid 2 now))
              (transientFinalRow pid oid 3 now)) pid now,
          attemptsRun := 3, unhandledRethrow := true } := by
    rw [runChainFrom_retry _ _ _ _ _ _ _ _ _ _ _ _ hstep1,
      runChainFrom_retry _ _ _ _ _ _ _ _ _ _ _ _ hstep2,
      runChainFrom_dead _ _ _ _ _ _ _ _ _ _ _ hstep3]
  refine ⟨hmain, ?_, ?_, ?_⟩
  · rw [hmain]
    simp [markPaymentFailed, insertRetryLog]
  · rw [hmain]
    intro q hq hqid
    simp only [markPaymentFailed, insertRetryLog] at hq
    obtain ⟨x, hxmem, hxeq⟩ := List.mem_map.mp hq
    by_cases hx : (x.payment_id == pid) = true
    · rw [if_pos hx] at hxeq
      subst hxeq
      exact ⟨rfl, rfl⟩
    · rw [if_neg hx] at hxeq
      subst hxeq
      exact absurd (by simp [hqid]) hx
  · unfold callerSeesNormalReturn
    rw [hstep1]

/-- Witness for C7: the all-failing schedule at the sample payment database
ends after three attempts with the payment marked FAILED and the
final-failure row logged. -/
theorem c7_dead_letter_termination_witness :
    runChainFrom (fun _ => true) samplePayDB "p1" "o1" PaymentStatus.SUCCESS (some "t1")
        none 1000 1
      = { db := markPaymentFailed (insertRetryLog (insertRetryLog (insertRetryLog
              samplePayDB (transientRetryRow "p1" "o1" 1 1000))
              (transientRetryRow "p1" "o1" 2 1000))
              (transientFinalRow "p1" "o1" 3 1000)) "p1" 1000,
          attemptsRun := 3, unhandledRethrow := true }
    ∧ (markPaymentFailed (insertRetryLog (insertRetryLog (insertRetryLog
          samplePayDB (transientRetryRow "p1" "o1" 1 1000))
          (transientRetryRow "p1" "o1" 2 1000))
          (transientFinalRow "p1" "o1" 3 1000)) "p1" 1000).payments.map
        (fun q => (q.payment_id, q.status, q.failure_reason))
      = [("p1", PaymentStatus.FAILED,
          some "Webhook processing failed after maximum retries")]
    ∧ callerSeesNormalReturn (fun _ => true) samplePayDB "p1" "o1" PaymentStatus.SUCCESS
        (some "t1") none 1000 = true :=
  ⟨(c7_dead_letter_termination samplePayDB "p1" "o1" PaymentStatus.SUCCESS (some "t1")
      none 1000).1,
    by decide,
    (c7_dead_letter_termination samplePayDB "p1" "o1" PaymentStatus.SUCCESS (some "t1")
      none 1000).2.2.2⟩

end OrderBackend
